import Mathlib

/-!
Shallow embedding of the nsq-py client core (src/nsq/client.py together with
the response/constants/exceptions modules exercised by src/test/test_response.py),
with theorems about discovery reconciliation, connection removal, the read
(pump) pass, and wire-frame decoding.

Bytes are modelled as Nat values below 256 in a List; multi-byte big-endian
fields are decoded with beVal and encoded with be2/be4/be8. Python exceptions
are modelled by the PyError type and fallible operations return Except PyError.
Stateful methods on the client return the (possibly mutated) state paired with
an Except result, mirroring that a raised exception leaves the mutations
performed so far in place.
-/

/-- Python exception classes that the modelled code can raise. -/
inductive PyError where
  | attributeError (msg : String)
  | typeError (msg : String)
  | keyError (msg : String)
  | other (msg : String)
deriving DecidableEq

deriving instance DecidableEq for Except

/-- Value of a big-endian byte sequence. -/
def beVal (bs : List Nat) : Nat := bs.foldl (fun a b => a * 256 + b) 0

/-- Big-endian 2-byte encoding of a value below 2^16. -/
def be2 (n : Nat) : List Nat := [n / 256 % 256, n % 256]

/-- Big-endian 4-byte encoding of a value below 2^32. -/
def be4 (n : Nat) : List Nat :=
  [n / 16777216 % 256, n / 65536 % 256, n / 256 % 256, n % 256]

/-- Big-endian 8-byte encoding of a value below 2^64. -/
def be8 (n : Nat) : List Nat :=
  [n / 72057594037927936 % 256, n / 281474976710656 % 256,
   n / 1099511627776 % 256, n / 4294967296 % 256,
   n / 16777216 % 256, n / 65536 % 256, n / 256 % 256, n % 256]

/-- Byte list of an ASCII string (Python bytes literal). -/
def asciiBytes (s : String) : List Nat := s.data.map Char.toNat

/-- String rendered from a byte list (Python str of an ASCII payload). -/
def bytesToStr (bs : List Nat) : String := String.mk (bs.map Char.ofNat)

/-- Modelled from the spec: frame-type tag for a plain Response frame
(nsq/constants.py is not under src/; section 4.4 of the spec only requires the
three tags to be distinct 4-byte big-endian values, so the NSQ wire values
0, 1, 2 are used). -/
def FRAME_TYPE_RESPONSE : Nat := 0

/-- Modelled from the spec: frame-type tag for an Error frame. -/
def FRAME_TYPE_ERROR : Nat := 1

/-- Modelled from the spec: frame-type tag for a Message frame. -/
def FRAME_TYPE_MESSAGE : Nat := 2

/-- Modelled from the spec: the decoded Response family (nsq/response.py is not
under src/). Section 4.4: a frame decodes to one of Response, Error, Message;
Response and Error carry the raw payload bytes, a Message carries the parsed
timestamp, attempt count, 16-byte id and trailing body. The back-reference from
a Message to its originating Connection is for ack routing only and is not
needed by any claim, so it is omitted here. -/
inductive Response where
  | response (data : List Nat)
  | error (data : List Nat)
  | message (timestamp : Nat) (attempts : Nat) (id : List Nat) (body : List Nat)
deriving DecidableEq

/-- Modelled from the spec: nsq/response.py Response.from_raw. Dispatch is on
the 4-byte big-endian frame-type tag at the start of the frame: RESPONSE and
ERROR keep the remaining payload raw; MESSAGE parses an 8-byte big-endian
timestamp, a 2-byte big-endian attempt count, a fixed 16-byte id and the
remaining bytes as body (section 3 requires at least 26 payload bytes); any
other tag fails with a protocol-decode error (a TypeError per
test_from_raw_unknown_frame), producing no partially-populated object. -/
def Response.from_raw (raw : List Nat) : Except PyError Response :=
  if raw.length < 4 then Except.error (PyError.typeError "frame too short")
  else
    let tag := beVal (raw.take 4)
    let data := raw.drop 4
    if tag = FRAME_TYPE_RESPONSE then Except.ok (Response.response data)
    else if tag = FRAME_TYPE_ERROR then Except.ok (Response.error data)
    else if tag = FRAME_TYPE_MESSAGE then
      if data.length < 26 then Except.error (PyError.typeError "malformed message frame")
      else Except.ok (Response.message (beVal (data.take 8))
        (beVal ((data.drop 8).take 2)) ((data.drop 10).take 16) (data.drop 26))
    else Except.error (PyError.typeError "unknown frame type")

/-- Modelled from the spec: the string form of a decoded response, section 4.4. -/
def Response.str : Response → String
  | Response.response d => "Response - " ++ bytesToStr d
  | Response.error d => "Error - " ++ bytesToStr d
  | Response.message t a i b =>
      "Message - " ++ toString t ++ " " ++ toString a ++ " "
        ++ bytesToStr i ++ " " ++ bytesToStr b

/-- Modelled from the spec: the ten distinct broker failure kinds of section
4.5 (nsq/exceptions.py is not under src/). -/
inductive NSQExceptionKind where
  | invalid
  | badBody
  | badTopic
  | badChannel
  | badMessage
  | pubFailed
  | mpubFailed
  | finFailed
  | reqFailed
  | touchFailed
deriving DecidableEq

/-- Modelled from the spec: the leading whitespace-delimited code token of an
Error payload (section 4.4: the leading token up to the first delimiter is the
error code). Byte 32 is the ASCII space. -/
def Error.code (data : List Nat) : List Nat := data.takeWhile (fun b => b ≠ 32)

/-- Modelled from the spec: the trailing message text of an Error payload
(everything after the first delimiter). -/
def Error.messageText (data : List Nat) : List Nat :=
  (data.dropWhile (fun b => b ≠ 32)).drop 1

/-- Modelled from the spec: nsq/response.py Error.find, the fixed closed
mapping from symbolic codes to failure kinds (section 4.5); lookup of an
unknown code fails with a TypeError (test_find_missing), never a fallback
kind. -/
def Error.find (code : String) : Except PyError NSQExceptionKind :=
  if code = "E_INVALID" then Except.ok NSQExceptionKind.invalid
  else if code = "E_BAD_BODY" then Except.ok NSQExceptionKind.badBody
  else if code = "E_BAD_TOPIC" then Except.ok NSQExceptionKind.badTopic
  else if code = "E_BAD_CHANNEL" then Except.ok NSQExceptionKind.badChannel
  else if code = "E_BAD_MESSAGE" then Except.ok NSQExceptionKind.badMessage
  else if code = "E_PUB_FAILED" then Except.ok NSQExceptionKind.pubFailed
  else if code = "E_MPUB_FAILED" then Except.ok NSQExceptionKind.mpubFailed
  else if code = "E_FIN_FAILED" then Except.ok NSQExceptionKind.finFailed
  else if code = "E_REQ_FAILED" then Except.ok NSQExceptionKind.reqFailed
  else if code = "E_TOUCH_FAILED" then Except.ok NSQExceptionKind.touchFailed
  else Except.error (PyError.typeError "no matching exception")

/-- Modelled from the spec: nsq/response.py Error.exception, the explicit
materialization of the typed failure value for an Error payload: the kind found
for the leading code token, carrying the trailing message text (section 4.5).
It is a separate operation, not run during from_raw. -/
def Error.exception (data : List Nat) : Except PyError (NSQExceptionKind × String) :=
  match Error.find (bytesToStr (Error.code data)) with
  | Except.ok kind => Except.ok (kind, bytesToStr (Error.messageText data))
  | Except.error e => Except.error e

/-- Endpoint identity key for pool membership: host and port, client.py line 32. -/
def Endpoint : Type := String × Nat
deriving DecidableEq

/-- One connection of the pool (nsq/connection.py collaborator, consumed by
client.py). Only the parts client.py touches are modelled: the identity fields
host and port (line 55), the pending-writes indicator pending (line 69), and
the frames the next read call will drain, readBuf (line 76). The close, flush,
fin, req and touch commands perform external I/O with no effect on the client
state modelled here. -/
structure Connection where
  host : String
  port : Nat
  pending : Bool
  readBuf : List Response
deriving DecidableEq

/-- Drain of a connection, client.py line 76: conn.read() returns the decoded
responses currently buffered on that connection, in arrival order. -/
def Connection.read (conn : Connection) : List Response := conn.readBuf

/-- The client state, client.py lines 18 to 22: the endpoint-to-connection
dictionary self._connections (a Python dict, modelled as an insertion-ordered
association list with unique keys) and self._last_discovery. The _topic and
_lookupd fields only shape the lookup URL and are absorbed into the fetch
argument of discover. -/
structure Client where
  connections : List (Endpoint × Connection)
  lastDiscovery : Nat
deriving DecidableEq

/-- Python dict subscript or get on the connections dict. -/
def dictGet (d : List (Endpoint × Connection)) (k : Endpoint) : Option Connection :=
  (d.find? (fun p => p.1 == k)).map Prod.snd

/-- Python dict item assignment on the connections dict: replaces the value in
place when the key exists, otherwise appends (dicts preserve insertion order). -/
def dictSet (d : List (Endpoint × Connection)) (k : Endpoint) (v : Connection) :
    List (Endpoint × Connection) :=
  if (dictGet d k).isSome then d.map (fun p => if p.1 == k then (k, v) else p)
  else d ++ [(k, v)]

/-- Message of the AttributeError raised by evaluating the attribute expression
self._connections.delete: self._connections is a plain dict (client.py line
19), and the Python dict type has no attribute named delete (its removal
methods are pop, popitem, del and clear), so attribute lookup raises
AttributeError before any call happens. -/
def dictDeleteMsg : String := "dict object has no attribute delete"

/-- Discovery reconciliation, client.py lines 24 to 51. Lines 26 to 33 (the
HTTP GET via requests, the JSON parse, and the extraction of
(broadcast_address, tcp_port) pairs from data and producers) are external I/O
plus pure extraction that mutate nothing on self; they are modelled by the
fetch argument: Except.error e when the exchange, the parse, or the shape
lookups fail, Except.ok producers otherwise. The connection.Connection
constructor of line 39 is the mkConn argument and time.time() of line 48 is
the now argument. Lines 36 to 39 register a new connection for each discovered
endpoint not already pooled. Lines 42 to 45 then iterate the no-longer
discovered keys; the first iteration evaluates self._connections.delete(key),
which raises AttributeError (see dictDeleteMsg), leaving the additions already
made in place and self._last_discovery unset. When no key disappeared the loop
body never runs, line 48 records now, and line 51 returns the new connections. -/
def Client.discover (c : Client) (fetch : Except PyError (List Endpoint))
    (mkConn : Endpoint → Connection) (now : Nat) :
    Client × Except PyError (List Connection) :=
  match fetch with
  | Except.error e => (c, Except.error e)
  | Except.ok producers =>
    let newKeys := (producers.filter (fun p => (dictGet c.connections p).isNone)).dedup
    let conns := newKeys.foldl (fun d k => dictSet d k (mkConn k)) c.connections
    let oldKeys := (conns.map Prod.fst).filter (fun k => !(producers.contains k))
    if oldKeys.isEmpty then
      ({ connections := conns, lastDiscovery := now },
       Except.ok (newKeys.filterMap (dictGet conns)))
    else
      ({ c with connections := conns },
       Except.error (PyError.attributeError dictDeleteMsg))

/-- Connection removal, client.py lines 53 to 61. Line 55 builds the endpoint
key from the connection; line 56 then evaluates self._connections.delete(key,
None), whose attribute lookup raises AttributeError (see dictDeleteMsg) before
the try block of lines 57 to 60 is reached, so the dictionary is not mutated
and nothing is closed. -/
def Client.remove (c : Client) (conn : Connection) :
    Client × Except PyError (Option Connection) :=
  let _key : Endpoint := (conn.host, conn.port)
  (c, Except.error (PyError.attributeError dictDeleteMsg))

/-- The cleanup loop of client.py lines 84 to 85: self.remove(conn) for each
connection the readiness wait reported in error; an exception raised by remove
aborts the loop and propagates. -/
def Client.removeAll : Client → List Connection → Client × Except PyError Unit
  | c, [] => (c, Except.ok ())
  | c, conn :: rest =>
    match c.remove conn with
    | (c2, Except.ok _) => Client.removeAll c2 rest
    | (c2, Except.error e) => (c2, Except.error e)

/-- Timeout argument of the readiness wait, client.py lines 70 to 71: the call
select.select(connections, writes, connections) passes no fourth argument, so
the wait is unbounded. -/
def Client.selectTimeout : Option Nat := none

/-- One pump pass, client.py lines 63 to 87. The select.select result is
modelled by the readable, writable and errored arguments (in the source,
sublists of the pooled connections, of the pending-write connections, and of
the pooled connections respectively). Lines 75 to 76 extend responses with the
drain of each readable connection in order; lines 79 to 80 flush each writable
connection (external I/O, no modelled state); lines 84 to 85 run self.remove
on each errored connection, and an exception raised there propagates,
discarding the collected responses; line 87 returns the aggregated responses. -/
def Client.read (c : Client) (readable writable errored : List Connection) :
    Client × Except PyError (List Response) :=
  let responses := (readable.map Connection.read).flatten
  let _writes := writable.map (fun _ => ())
  match Client.removeAll c errored with
  | (c2, Except.ok _) => (c2, Except.ok responses)
  | (c2, Except.error e) => (c2, Except.error e)

/-- Decoding a 2-byte big-endian encoding recovers the encoded value. -/
theorem beVal_be2 (n : Nat) (h : n < 65536) : beVal (be2 n) = n := by
  simp [beVal, be2, List.foldl]
  omega

/-- Decoding a 4-byte big-endian encoding recovers the encoded value. -/
theorem beVal_be4 (n : Nat) (h : n < 4294967296) : beVal (be4 n) = n := by
  simp [beVal, be4, List.foldl]
  omega

/-- Decoding an 8-byte big-endian encoding recovers the encoded value. -/
theorem beVal_be8 (n : Nat) (h : n < 18446744073709551616) : beVal (be8 n) = n := by
  simp [beVal, be8, List.foldl]
  omega

/-- C1: with prior pool holding endpoints A = (a,1) and B = (b,2) and
discovered set B, C = (c,3), discover does not leave the pool holding exactly
B and C: it registers C and then raises AttributeError while trying to drop A
(client.py line 45, self._connections.delete), so the call returns no new
connection list, the pool is left holding A, B and C with A neither closed nor
removed, and the last-discovery timestamp is not updated. -/
theorem discover_raises_on_disappeared_endpoint :
    Client.discover
      (Client.mk [((("a", 1) : Endpoint), Connection.mk "a" 1 false []),
                  ((("b", 2) : Endpoint), Connection.mk "b" 2 false [])] 7)
      (Except.ok [(("b", 2) : Endpoint), (("c", 3) : Endpoint)])
      (fun ep => Connection.mk ep.1 ep.2 false []) 99
    = (Client.mk [((("a", 1) : Endpoint), Connection.mk "a" 1 false []),
                  ((("b", 2) : Endpoint), Connection.mk "b" 2 false []),
                  ((("c", 3) : Endpoint), Connection.mk "c" 3 false [])] 7,
       Except.error (PyError.attributeError dictDeleteMsg)) := by decide

/-- C2: remove is not an idempotent removal that raises nothing: already its
first call on a pooled connection raises AttributeError (client.py line 56,
self._connections.delete(key, None) on a plain dict), removing nothing,
closing nothing, and returning no value. -/
theorem remove_raises_attributeError :
    Client.remove
      (Client.mk [((("a", 1) : Endpoint), Connection.mk "a" 1 false [])] 0)
      (Connection.mk "a" 1 false [])
    = (Client.mk [((("a", 1) : Endpoint), Connection.mk "a" 1 false [])] 0,
       Except.error (PyError.attributeError dictDeleteMsg)) := by decide

/-- C3: per-connection failures observed inside the pump pass are not
contained: when the readiness wait reports a connection in error, the cleanup
call self.remove(conn) (client.py line 85) raises AttributeError (client.py
line 56) and that error propagates to the caller of read instead of being
swallowed. -/
theorem read_raises_on_errored_connection :
    (Client.read
      (Client.mk [((("a", 1) : Endpoint), Connection.mk "a" 1 false [])] 0)
      [] [] [Connection.mk "a" 1 false []]).2
    = Except.error (PyError.attributeError dictDeleteMsg) := by decide

/-- C4 (counterexample): the readiness wait of the pump pass has no bounded
timeout: select.select at client.py lines 70 to 71 is called without a timeout
argument, so the wait is unbounded. -/
theorem selectTimeout_is_unbounded : Client.selectTimeout = none := rfl

/-- C4 (amended): the readiness wait is unbounded, so the pump pass is not
guaranteed to return when nothing becomes ready; whenever the wait does return
reporting no readable, writable or errored connection, read returns an empty
response sequence and leaves the client unchanged. -/
theorem read_returns_empty_when_nothing_ready (c : Client) :
    Client.read c [] [] [] = (c, Except.ok []) := rfl

/-- C4 (amended) witness at a concrete client. -/
theorem read_returns_empty_when_nothing_ready_witness :
    Client.read (Client.mk [] 0) [] [] [] = (Client.mk [] 0, Except.ok []) :=
  read_returns_empty_when_nothing_ready (Client.mk [] 0)

/-- C5: whenever a pump pass returns a response sequence, that sequence is
exactly the concatenation, in order, of the drains of the readable connections:
every frame buffered on each readable connection (zero, one or many per
connection) appears, grouped by connection in per-connection arrival order,
and nothing else is returned. -/
theorem read_returns_aggregated_responses (c : Client)
    (readable writable errored : List Connection) (l : List Response)
    (h : (Client.read c readable writable errored).2 = Except.ok l) :
    l = (readable.map Connection.read).flatten := by
  unfold Client.read at h
  cases hr : Client.removeAll c errored with
  | mk c2 r =>
    cases r with
    | ok u => rw [hr] at h; simpa using h.symm
    | error e => rw [hr] at h; simp at h

/-- C5 witness: a pass over two readable connections, the first buffering two
frames and the second one frame, aggregates the three frames in order. -/
theorem read_returns_aggregated_responses_witness :
    [Response.response [104], Response.response [105], Response.response [106]]
    = ([Connection.mk "a" 1 false [Response.response [104], Response.response [105]],
        Connection.mk "b" 2 false [Response.response [106]]].map Connection.read).flatten :=
  read_returns_aggregated_responses (Client.mk [] 0)
    [Connection.mk "a" 1 false [Response.response [104], Response.response [105]],
     Connection.mk "b" 2 false [Response.response [106]]] [] []
    [Response.response [104], Response.response [105], Response.response [106]]
    rfl

/-- C8: decoding an Error frame with payload E_INVALID some message yields the
Error variant still carrying the raw payload (no materialization happens on
decode); the leading code token maps to the invalid failure kind, and the
explicitly materialized failure value carries exactly the trailing text some
message. -/
theorem error_frame_invalid_decode :
    Response.from_raw (be4 FRAME_TYPE_ERROR ++ asciiBytes "E_INVALID some message")
      = Except.ok (Response.error (asciiBytes "E_INVALID some message"))
    ∧ Error.find (bytesToStr (Error.code (asciiBytes "E_INVALID some message")))
      = Except.ok NSQExceptionKind.invalid
    ∧ Error.exception (asciiBytes "E_INVALID some message")
      = Except.ok (NSQExceptionKind.invalid, "some message") := by
  refine ⟨by decide, by decide, by decide⟩

/-- C6: a raw frame whose leading 4-byte big-endian tag is none of RESPONSE,
ERROR, MESSAGE fails to decode with a protocol-decode error (a TypeError) and
from_raw produces no partially-populated response object, whatever the payload
is; the failure is an error result, never a silently defaulted value. -/
theorem from_raw_unknown_tag_fails (tag : Nat) (payload : List Nat)
    (hlt : tag < 4294967296)
    (h0 : tag ≠ FRAME_TYPE_RESPONSE) (h1 : tag ≠ FRAME_TYPE_ERROR)
    (h2 : tag ≠ FRAME_TYPE_MESSAGE) :
    Response.from_raw (be4 tag ++ payload)
      = Except.error (PyError.typeError "unknown frame type") := by
  have hlen : (be4 tag).length = 4 := rfl
  have htake : (be4 tag ++ payload).take 4 = be4 tag := by
    rw [← hlen]; exact List.take_left _ _
  have hg : ¬((be4 tag ++ payload).length < 4) := by
    rw [List.length_append, hlen]; omega
  unfold Response.from_raw
  rw [if_neg hg, htake, beVal_be4 tag hlt]
  simp [h0, h1, h2]

/-- C6 witness: the unknown tag 9042 of test_from_raw_unknown_frame, with
payload hello, fails to decode with a TypeError. -/
theorem from_raw_unknown_tag_fails_witness :
    Response.from_raw (be4 9042 ++ asciiBytes "hello")
      = Except.error (PyError.typeError "unknown frame type") :=
  from_raw_unknown_tag_fails 9042 (asciiBytes "hello")
    (by decide) (by decide) (by decide) (by decide)

/-- C7: the error-code lookup is a fixed closed mapping sending each of the
ten symbolic codes to its own failure kind, those ten kinds are pairwise
distinct, and every code outside the ten fails with a TypeError rather than
falling back to a generic kind. -/
theorem find_closed_mapping :
    (["E_INVALID", "E_BAD_BODY", "E_BAD_TOPIC", "E_BAD_CHANNEL", "E_BAD_MESSAGE",
      "E_PUB_FAILED", "E_MPUB_FAILED", "E_FIN_FAILED", "E_REQ_FAILED",
      "E_TOUCH_FAILED"].map Error.find
      = [Except.ok NSQExceptionKind.invalid, Except.ok NSQExceptionKind.badBody,
         Except.ok NSQExceptionKind.badTopic, Except.ok NSQExceptionKind.badChannel,
         Except.ok NSQExceptionKind.badMessage, Except.ok NSQExceptionKind.pubFailed,
         Except.ok NSQExceptionKind.mpubFailed, Except.ok NSQExceptionKind.finFailed,
         Except.ok NSQExceptionKind.reqFailed, Except.ok NSQExceptionKind.touchFailed])
    ∧ ([NSQExceptionKind.invalid, NSQExceptionKind.badBody, NSQExceptionKind.badTopic,
        NSQExceptionKind.badChannel, NSQExceptionKind.badMessage,
        NSQExceptionKind.pubFailed, NSQExceptionKind.mpubFailed,
        NSQExceptionKind.finFailed, NSQExceptionKind.reqFailed,
        NSQExceptionKind.touchFailed] : List NSQExceptionKind).Nodup
    ∧ (∀ code : String,
        code ∉ ["E_INVALID", "E_BAD_BODY", "E_BAD_TOPIC", "E_BAD_CHANNEL",
                "E_BAD_MESSAGE", "E_PUB_FAILED", "E_MPUB_FAILED", "E_FIN_FAILED",
                "E_REQ_FAILED", "E_TOUCH_FAILED"] →
        Error.find code = Except.error (PyError.typeError "no matching exception")) := by
  refine ⟨rfl, by decide, ?_⟩
  intro code h
  simp only [List.mem_cons, List.not_mem_nil, or_false, not_or] at h
  obtain ⟨h1, h2, h3, h4, h5, h6, h7, h8, h9, h10⟩ := h
  simp [Error.find, h1, h2, h3, h4, h5, h6, h7, h8, h9, h10]

/-- C7 witness: the unknown code of test_find_missing fails with a TypeError. -/
theorem find_closed_mapping_witness :
    Error.find "woruowijklf" = Except.error (PyError.typeError "no matching exception") :=
  find_closed_mapping.2.2 "woruowijklf" (by decide)

/-- C9: every well-formed Message frame, built from an 8-byte big-endian
timestamp, a 2-byte big-endian attempt count, a 16-byte id and a trailing
body, decodes to the Message with exactly those field values; in particular
the message of the TestMessage fixture, with timestamp 0, one attempt, a
16-byte id and body hello, has string form Message - 0 1 id hello. -/
theorem message_frame_decode :
    (∀ (t a : Nat) (id body : List Nat),
      t < 18446744073709551616 → a < 65536 → id.length = 16 →
      Response.from_raw (be4 FRAME_TYPE_MESSAGE ++ (be8 t ++ be2 a ++ id ++ body))
        = Except.ok (Response.message t a id body))
    ∧ Response.str (Response.message 0 1 (asciiBytes "0123456789abcdef")
        (asciiBytes "hello"))
      = "Message - 0 1 0123456789abcdef hello" := by
  constructor
  · intro t a id body ht ha hid
    have h4 : (be4 FRAME_TYPE_MESSAGE).length = 4 := rfl
    have h8 : (be8 t).length = 8 := rfl
    have h2l : (be2 a).length = 2 := rfl
    have htake : (be4 FRAME_TYPE_MESSAGE ++ (be8 t ++ be2 a ++ id ++ body)).take 4
        = be4 FRAME_TYPE_MESSAGE := by
      rw [← h4]; exact List.take_left _ _
    have hdrop : (be4 FRAME_TYPE_MESSAGE ++ (be8 t ++ be2 a ++ id ++ body)).drop 4
        = be8 t ++ be2 a ++ id ++ body := by
      rw [← h4]; exact List.drop_left _ _
    have hassoc : be8 t ++ be2 a ++ id ++ body = be8 t ++ (be2 a ++ (id ++ body)) := by
      simp [List.append_assoc]
    have hg : ¬((be4 FRAME_TYPE_MESSAGE ++ (be8 t ++ be2 a ++ id ++ body)).length < 4) := by
      rw [List.length_append, h4]; omega
    have hdlen : (be8 t ++ be2 a ++ id ++ body).length = 26 + body.length := by
      simp [List.length_append, h8, h2l, hid]; omega
    have hg26 : ¬((be8 t ++ be2 a ++ id ++ body).length < 26) := by
      rw [hdlen]; omega
    have htake8 : (be8 t ++ be2 a ++ id ++ body).take 8 = be8 t := by
      rw [hassoc, ← h8]; exact List.take_left _ _
    have hdrop8 : (be8 t ++ be2 a ++ id ++ body).drop 8 = be2 a ++ (id ++ body) := by
      rw [hassoc, ← h8]; exact List.drop_left _ _
    have htake2 : (be2 a ++ (id ++ body)).take 2 = be2 a := by
      rw [← h2l]; exact List.take_left _ _
    have hdrop10 : (be8 t ++ be2 a ++ id ++ body).drop 10 = id ++ body := by
      have hstep : (be8 t ++ (be2 a ++ (id ++ body))).drop 10
          = (be2 a ++ (id ++ body)).drop 2 := by
        have hd := @List.drop_append_eq_append_drop Nat (be8 t)
          (be2 a ++ (id ++ body)) 10
        simpa [h8] using hd
      rw [hassoc, hstep, ← h2l]; exact List.drop_left _ _
    have htake16 : (id ++ body).take 16 = id := by
      rw [← hid]; exact List.take_left _ _
    have hdrop26 : (be8 t ++ be2 a ++ id ++ body).drop 26 = body := by
      have hs1 : (be8 t ++ (be2 a ++ (id ++ body))).drop 26
          = (be2 a ++ (id ++ body)).drop 18 := by
        have hd := @List.drop_append_eq_append_drop Nat (be8 t)
          (be2 a ++ (id ++ body)) 26
        simpa [h8] using hd
      have hs2 : (be2 a ++ (id ++ body)).drop 18 = (id ++ body).drop 16 := by
        have hd := @List.drop_append_eq_append_drop Nat (be2 a) (id ++ body) 18
        simpa [h2l] using hd
      have hs3 : (id ++ body).drop 16 = body := by
        rw [← hid]; exact List.drop_left _ _
      rw [hassoc, hs1, hs2, hs3]
    unfold Response.from_raw
    rw [if_neg hg, htake, hdrop, beVal_be4 FRAME_TYPE_MESSAGE (by decide)]
    rw [if_neg (by decide), if_neg (by decide), if_pos rfl, if_neg hg26]
    rw [htake8, beVal_be8 t ht, hdrop8, htake2, beVal_be2 a ha, hdrop10, htake16,
      hdrop26]
  · rfl

/-- C9 witness: the TestMessage fixture frame, with timestamp 0, attempt count
1, the 16-byte id 0123456789abcdef and body hello, decodes to exactly that
Message. -/
theorem message_frame_decode_witness :
    Response.from_raw (be4 FRAME_TYPE_MESSAGE
        ++ (be8 0 ++ be2 1 ++ asciiBytes "0123456789abcdef" ++ asciiBytes "hello"))
      = Except.ok (Response.message 0 1 (asciiBytes "0123456789abcdef")
          (asciiBytes "hello")) :=
  message_frame_decode.1 0 1 (asciiBytes "0123456789abcdef") (asciiBytes "hello")
    (by decide) (by decide) (by decide)

/-- C10: when the discovery exchange fails, or its response body fails to parse
or lacks the expected data and producers shape (all of which happen in
client.py lines 26 to 33, before any mutation), discover raises that error and
the client state, both the connection pool and the last-discovery timestamp,
is exactly as it was before the call. -/
theorem discover_error_leaves_state_unchanged (c : Client) (e : PyError)
    (mkConn : Endpoint → Connection) (now : Nat) :
    Client.discover c (Except.error e) mkConn now = (c, Except.error e) := rfl

/-- C10 witness at a concrete client and error. -/
theorem discover_error_leaves_state_unchanged_witness :
    Client.discover
      (Client.mk [((("a", 1) : Endpoint), Connection.mk "a" 1 false [])] 5)
      (Except.error (PyError.keyError "producers"))
      (fun ep => Connection.mk ep.1 ep.2 false []) 9
    = (Client.mk [((("a", 1) : Endpoint), Connection.mk "a" 1 false [])] 5,
       Except.error (PyError.keyError "producers")) :=
  discover_error_leaves_state_unchanged
    (Client.mk [((("a", 1) : Endpoint), Connection.mk "a" 1 false [])] 5)
    (PyError.keyError "producers")
    (fun ep => Connection.mk ep.1 ep.2 false []) 9
